import Mathlib

/-!
Shallow embedding of `src/server/speaker-service/speaker_service.py`
(FastAPI sidecar: speaker embedding, comparison and diarization).

Modelling conventions:
* Python floats are idealised as rationals (`ℚ`); the float literals
  `1e-8`, `0.80`, `16000.0` of the source are exact in `ℚ`.
* External library calls that live outside the repository are oracle
  parameters: `torchaudio.load` is `Env.decode`,
  `torchaudio.functional.resample` is `Env.resample`, `np.linalg.norm`
  is `Env.norm` (theorems that need its meaning assume
  `norm v * norm v = dot v v` at the inputs involved), the loaded
  ECAPA model is a function `List ℚ → List ℚ` and the pyannote
  pipeline a function `Bytes → Except String (List RawTurn)`.
* Side effects of a handler (reading the upload, writing/removing the
  temporary file, invoking decoder/model/pipeline, numeric work in
  `compare`) are recorded in an `Effect` trace returned next to the
  response, in the order the source performs them.
* Python `round(x, n)` is modelled as `round (x * 10^n) / 10^n` with
  Mathlib's `round` (ties, which are not exactly representable in
  binary floats anyway, are idealised as rounding up).
-/

namespace SpeakerService

/-- Raw upload bytes (opaque to the service except for decoding). -/
abbrev Bytes := List ℕ

/-- A decoded audio tensor as returned by `torchaudio.load`:
a list of channels, each a list of samples (row-major `(C, N)`). -/
abbrev Audio := List (List ℚ)

/-- An HTTP error as raised by `HTTPException(status_code, detail)`. -/
structure HttpError where
  status : ℕ
  detail : String
deriving DecidableEq, Repr

/-- Response body of `POST /compare` (`CompareResponse`). -/
structure CompareResponse where
  similarity : ℚ
  is_match : Bool
deriving DecidableEq, Repr

/-- Response body of `POST /embed` (`EmbedResponse`). -/
structure EmbedResponse where
  embedding : List ℚ
  duration_s : ℚ
deriving DecidableEq, Repr

/-- One diarization segment (`DiarizeSegment`); `stop` models the
source's `end` field, a Lean keyword. -/
structure DiarizeSegment where
  speaker : String
  start : ℚ
  stop : ℚ
deriving DecidableEq, Repr

/-- Response body of `POST /diarize` (`DiarizeResponse`). -/
structure DiarizeResponse where
  segments : List DiarizeSegment
deriving DecidableEq, Repr

/-- Response body of `GET /health` (`HealthResponse`). -/
structure HealthResponse where
  status : String
  models_loaded : Bool
  diarization_available : Bool
deriving DecidableEq, Repr

/-- A raw `(turn, _, speaker)` track yielded by the pyannote pipeline's
`itertracks(yield_label=True)`; `stop` models `turn.end`. -/
structure RawTurn where
  start : ℚ
  stop : ℚ
  speaker : String
deriving DecidableEq, Repr

/-- What a handler returns over the wire: one success body or an
`HTTPException`. -/
inductive Response where
  | health (h : HealthResponse)
  | embedOk (e : EmbedResponse)
  | compareOk (c : CompareResponse)
  | diarizeOk (d : DiarizeResponse)
  | error (e : HttpError)
deriving DecidableEq, Repr

/-- Observable side effects of one request, in source order. -/
inductive Effect where
  | fileRead
  | tempWrite (suffix : String)
  | decodeCall
  | tempDelete
  | encodeCall
  | pipelineCall
  | arith
deriving DecidableEq, Repr

/-- The external libraries the service calls into (not part of this
repository): decoder, resampler and vector norm. -/
structure Env where
  decode : Bytes → Except String (Audio × ℕ)
  resample : List ℚ → ℕ → ℕ → List ℚ
  norm : List ℚ → ℚ

/-- The module-level globals `ecapa_model`, `diarization_pipeline`,
`models_loaded`, `diarization_available` (lines 19-22). The two model
handles are modelled by the functions they compute. -/
structure ServerState where
  ecapa_model : Option (List ℚ → List ℚ)
  diarization_pipeline : Option (Bytes → Except String (List RawTurn))
  models_loaded : Bool
  diarization_available : Bool

/-- `_load_models` (lines 25-55): the ECAPA model always loads; the
pyannote pipeline loads only when `HF_TOKEN` is set to a non-empty
string (`if hf_token:`) and `Pipeline.from_pretrained` succeeds, in
which case `diarization_available` is set; `models_loaded` is set at
the end on every path. -/
def load_models (ecapaLoad : List ℚ → List ℚ) (hf_token : Option String)
    (pipelineLoad : String → Except String (Bytes → Except String (List RawTurn))) :
    ServerState :=
  match hf_token with
  | none => ⟨some ecapaLoad, none, true, false⟩
  | some tok =>
    if tok = "" then ⟨some ecapaLoad, none, true, false⟩
    else
      match pipelineLoad tok with
      | .ok pl => ⟨some ecapaLoad, some pl, true, true⟩
      | .error _ => ⟨some ecapaLoad, none, true, false⟩

/-- `SUPPORTED_EXTENSIONS` (line 79). A Python set; membership is all
that is used of it. -/
def SUPPORTED_EXTENSIONS : List String :=
  [".wav", ".mp3", ".ogg", ".webm", ".m4a", ".flac", ".aac"]

/-- Index of the last element satisfying `p` (Python's `str.rfind`). -/
def rfindIdx (p : Char → Bool) (l : List Char) : Option ℕ :=
  match l.reverse.findIdx? p with
  | none => none
  | some i => some (l.length - 1 - i)

/-- The extension part of `os.path.splitext`: the suffix from the last
dot, provided that dot lies after the last path separator and some
character of the basename before it is not a dot (so `.bashrc` has no
extension). Mirrors `posixpath.splitext`. -/
def splitextExt (s : String) : String :=
  let l := s.toList
  match rfindIdx (fun c => c = '.') l with
  | none => ""
  | some d =>
    let first := match rfindIdx (fun c => c = '/') l with
      | none => 0
      | some sp => sp + 1
    if first ≤ d ∧ ((l.drop first).take (d - first)).any (fun c => c ≠ '.') then
      String.mk (l.drop d)
    else ""

/-- `filename or "audio.wav"`: FastAPI's `UploadFile.filename` is an
optional string, and Python's `or` also replaces the empty string. -/
def effFilename : Option String → String
  | none => "audio.wav"
  | some f => if f = "" then "audio.wav" else f

/-- `str.lower()`, as a character-wise map (the extensions involved
are ASCII). -/
def strLower (s : String) : String := String.mk (s.toList.map Char.toLower)

/-- `os.path.splitext(filename or "audio.wav")[1].lower()`
(lines 84 and 193). -/
def extSuffix (filename : Option String) : String :=
  strLower (splitextExt (effFilename filename))

/-- Pointwise mean over channels, `waveform.mean(dim=0)` on a `(C, N)`
tensor whose rows all have the length of the first. -/
def channelAvg (chans : Audio) : List ℚ :=
  (List.range (chans.headD []).length).map
    (fun i => ((chans.map (fun c => c.getD i 0)).sum) / (chans.length : ℚ))

/-- `tensor.squeeze(0)` on a `(1, N)` tensor. After the downmix step
the tensor has exactly one row whenever the decoder produced at least
one channel; other shapes do not reach this point. -/
def squeeze0 (t : Audio) : List ℚ :=
  match t with
  | [c] => c
  | _ => []

/-- A decoded, normalised waveform: 1-D samples plus the sample rate
they are at (the source keeps the rate implicit and divides by
`16000.0` downstream). -/
structure Waveform where
  samples : List ℚ
  rate : ℕ
deriving DecidableEq, Repr

/-- `_load_audio` (lines 82-107). Checks the filename extension
against the allow-list, then writes the bytes to a temporary file,
decodes them (`torchaudio.load`), removes the file (the `finally`
runs on both paths), downmixes to mono by averaging when there is
more than one channel, and resamples when the native rate is not
16000. Returns the squeezed 1-D waveform and the effect trace. -/
def load_audio (env : Env) (data : Bytes) (filename : Option String) :
    Except HttpError Waveform × List Effect :=
  let suffix := extSuffix filename
  if suffix ∈ SUPPORTED_EXTENSIONS then
    match env.decode data with
    | .error exc =>
      (.error ⟨400, "Cannot decode audio: " ++ exc⟩,
       [.tempWrite suffix, .decodeCall, .tempDelete])
    | .ok (chans, sr) =>
      let mono : Audio := if 1 < chans.length then [channelAvg chans] else chans
      let resampled : Audio :=
        if sr ≠ 16000 then mono.map (fun c => env.resample c sr 16000) else mono
      (.ok ⟨squeeze0 resampled, if sr ≠ 16000 then 16000 else sr⟩,
       [.tempWrite suffix, .decodeCall, .tempDelete])
  else
    (.error ⟨400, "Unsupported format: " ++ suffix⟩, [])

/-- `eps`: the `1e-8` added to the denominator of the cosine (line 180). -/
def eps : ℚ := 1 / 100000000

/-- Dot product of two equal-length vectors (`np.dot`). -/
def dot (a b : List ℚ) : ℚ := (List.zipWith (fun x y => x * y) a b).sum

/-- `round(x, 4)` (line 181). -/
def round4 (q : ℚ) : ℚ := ((round (q * 10000) : ℤ) : ℚ) / 10000

/-- `round(x, 3)` (lines 169 and 208). -/
def round3 (q : ℚ) : ℚ := ((round (q * 1000) : ℤ) : ℚ) / 1000

/-- `cos_sim` (line 180): `np.dot(a, b) / (np.linalg.norm(a) *
np.linalg.norm(b) + 1e-8)`, with the library norm as oracle. -/
def cos_sim (norm : List ℚ → ℚ) (a b : List ℚ) : ℚ :=
  dot a b / (norm a * norm b + eps)

/-- `compare` (lines 172-181). Pydantic delivers `embedding_a` and
`embedding_b` as flat lists of floats, so `np.array(...)` is always
1-D and `a.ndim != 1` never fires; the reachable part of the shape
check is length equality. On success the similarity is rounded to 4
decimals while `is_match` compares the unrounded value with `0.80`. -/
def compare (norm : List ℚ → ℚ) (embedding_a embedding_b : List ℚ) :
    Response × List Effect :=
  if embedding_a.length = embedding_b.length then
    (.compareOk
      ⟨round4 (cos_sim norm embedding_a embedding_b),
       decide ((0.80 : ℚ) ≤ cos_sim norm embedding_a embedding_b)⟩,
     [.arith])
  else
    (.error ⟨400, "Embeddings must be 1-D arrays of equal length"⟩, [])

/-- `embed` (lines 156-169): 503 when the model handle is `None`,
otherwise read the upload, run `_load_audio`, and encode the waveform
(batch of one, squeezed back) with the duration rounded to 3 decimals. -/
def embed (env : Env) (s : ServerState) (data : Bytes) (filename : Option String) :
    Response × List Effect :=
  match s.ecapa_model with
  | none => (.error ⟨503, "Model not loaded"⟩, [])
  | some enc =>
    match load_audio env data filename with
    | (.error e, effs) => (.error e, .fileRead :: effs)
    | (.ok w, effs) =>
      (.embedOk ⟨enc w.samples, round3 ((w.samples.length : ℚ) / 16000)⟩,
       .fileRead :: effs ++ [.encodeCall])

/-- `diarize` (lines 184-210): 503 before touching the upload when the
pipeline handle is `None`; otherwise read the upload, write it to a
temporary file named with the filename's suffix (no allow-list check
here), run the pipeline, remove the file, and map the tracks to
segments with times rounded to 3 decimals. -/
def diarize (s : ServerState) (data : Bytes) (filename : Option String) :
    Response × List Effect :=
  match s.diarization_pipeline with
  | none =>
    (.error ⟨503, "Diarization not available. Set HF_TOKEN and accept pyannote model terms."⟩,
     [])
  | some pl =>
    let suffix := extSuffix filename
    match pl data with
    | .error exc =>
      (.error ⟨500, "Diarization failed: " ++ exc⟩,
       [.fileRead, .tempWrite suffix, .pipelineCall, .tempDelete])
    | .ok turns =>
      (.diarizeOk ⟨turns.map (fun t => ⟨t.speaker, round3 t.start, round3 t.stop⟩)⟩,
       [.fileRead, .tempWrite suffix, .pipelineCall, .tempDelete])

/-- `health` (lines 147-153). -/
def health (s : ServerState) : Response × List Effect :=
  (.health ⟨"ok", s.models_loaded, s.diarization_available⟩, [])

/-- One request to the service. -/
inductive Request where
  | health
  | embed (data : Bytes) (filename : Option String)
  | compare (embedding_a embedding_b : List ℚ)
  | diarize (data : Bytes) (filename : Option String)

/-- One request step. The handlers read the module globals and assign
none of them, so the state component is returned unchanged. -/
def step (env : Env) (s : ServerState) : Request → ServerState × Response × List Effect
  | .health => (s, health s)
  | .embed data fn => (s, embed env s data fn)
  | .compare a b => (s, compare env.norm a b)
  | .diarize data fn => (s, diarize s data fn)

/-- A whole post-startup run: the state threaded through a request
sequence. -/
def runRequests (env : Env) (s : ServerState) (rs : List Request) : ServerState :=
  rs.foldl (fun st r => (step env st r).1) s

/-- Exact L2 norm of a one-element vector: the value `np.linalg.norm`
returns on `[p]` is `|p|`. Used to instantiate the norm oracle at
concrete one-dimensional inputs. -/
def norm1 (v : List ℚ) : ℚ :=
  match v with
  | [p] => |p|
  | _ => 0

/-- Fixture: a pipeline loader that fails (pyannote raising during
`from_pretrained`). -/
def plLoadFail : String → Except String (Bytes → Except String (List RawTurn)) :=
  fun _ => .error "load failed"

/-- Fixture: a pipeline that diarizes every input to no segments. -/
def plEmpty : Bytes → Except String (List RawTurn) := fun _ => .ok []

/-- Fixture: an environment whose decoder rejects everything. -/
def envDemo : Env := ⟨fun _ => .error "opaque bytes", fun c _ _ => c, norm1⟩

/-- Fixture: an environment that decodes everything to a two-channel
8 kHz clip, with an identity resampler. -/
def envStereo : Env := ⟨fun _ => .ok ([[1, 3], [3, 5]], 8000), fun c _ _ => c, norm1⟩

/-- Fixture: the post-startup state with both models loaded. -/
def sFull : ServerState := ⟨some (fun w => w), some plEmpty, true, true⟩

/-! ## Theorems -/

/-- Rounding to four decimals, characterised by bracketing the scaled
value around an integer. -/
theorem round4_eq (q : ℚ) (n : ℤ) (h1 : (n : ℚ) ≤ q * 10000 + 1/2)
    (h2 : q * 10000 + 1/2 < (n : ℚ) + 1) : round4 q = (n : ℚ) / 10000 := by
  unfold round4
  rw [round_eq, Int.floor_eq_iff.mpr ⟨h1, h2⟩]

/-- The dot product is symmetric. -/
theorem dot_comm (a b : List ℚ) : dot a b = dot b a := by
  unfold dot
  rw [List.zipWith_comm_of_comm (fun x y => x * y) mul_comm]

/-- The computed cosine (including the epsilon) is symmetric. -/
theorem cos_sim_comm (n : List ℚ → ℚ) (a b : List ℚ) :
    cos_sim n a b = cos_sim n b a := by
  unfold cos_sim
  rw [dot_comm, mul_comm (n a) (n b)]

/-- Bounds for the self-similarity value `S / (S + eps)` when the
squared norm `S` is at least `1/5000`. -/
theorem selfSim_bounds (S : ℚ) (h : 1/5000 ≤ S) :
    (19999 : ℚ)/20000 ≤ S / (S + eps) ∧ S / (S + eps) ≤ 1 := by
  have hpos : (0 : ℚ) < S + eps := by unfold eps; linarith
  constructor
  · rw [div_le_div_iff₀ (by norm_num) hpos]
    unfold eps
    linarith
  · rw [div_le_one hpos]
    unfold eps
    linarith

/-- C1 (counterexample): the claim "compare(x, x) returns a similarity
equal to 1.0 for every non-zero x" fails on the code. At the non-zero
embedding `x = [0.0001]` the epsilon in the denominator gives
`cos_sim = 1e-8 / (1e-8 + 1e-8) = 0.5`, so the returned similarity is
`0.5`, not `1.0` (the oracle value used for `np.linalg.norm` is exact
here: `norm([p]) = |p|`). -/
theorem C1_counterexample :
    compare norm1 [(1 : ℚ)/10000] [(1 : ℚ)/10000] =
      (.compareOk ⟨1/2, false⟩, [.arith]) ∧
    ((1 : ℚ)/2 ≠ 1) ∧ ([(1 : ℚ)/10000] ≠ ([0] : List ℚ)) ∧
    norm1 [(1 : ℚ)/10000] * norm1 [(1 : ℚ)/10000] =
      dot [(1 : ℚ)/10000] [(1 : ℚ)/10000] := by
  have h1 : norm1 [(1 : ℚ)/10000] = 1/10000 := abs_of_nonneg (by norm_num)
  have hcos : cos_sim norm1 [(1 : ℚ)/10000] [(1 : ℚ)/10000] = 1/2 := by
    unfold cos_sim
    rw [h1]
    norm_num [dot, eps]
  have hround : round4 ((1 : ℚ)/2) = 1/2 := by
    have h := round4_eq ((1 : ℚ)/2) 5000 (by norm_num) (by norm_num)
    norm_num at h ⊢
    exact h
  have hm : ¬((0.80 : ℚ) ≤ 1/2) := by norm_num
  refine ⟨?_, by norm_num, by simp, ?_⟩
  · show (Response.compareOk
        ⟨round4 (cos_sim norm1 [(1 : ℚ)/10000] [(1 : ℚ)/10000]),
         decide ((0.80 : ℚ) ≤ cos_sim norm1 [(1 : ℚ)/10000] [(1 : ℚ)/10000])⟩,
       ([.arith] : List Effect)) = _
    rw [hcos, hround, decide_eq_false hm]
  · rw [h1]
    norm_num [dot]

/-- C1 (amended): because of the `1e-8` epsilon in the denominator,
`compare(x, x)` computes `S / (S + 1e-8)` with `S` the squared norm
of `x`, which is strictly below 1; but whenever `S ≥ 1/5000` (so in
particular for embeddings of roughly unit norm or larger) the value
rounds to exactly `1.0` and `is_match` is true. Stated for any norm
oracle that is exact at `x`. -/
theorem C1_selfSimilarity (n : List ℚ → ℚ) (x : List ℚ)
    (hn : n x * n x = dot x x) (hbig : 1/5000 ≤ dot x x) :
    compare n x x = (.compareOk ⟨1, true⟩, [.arith]) := by
  have hcos : cos_sim n x x = dot x x / (dot x x + eps) := by
    unfold cos_sim
    rw [hn]
  obtain ⟨hlow, hhigh⟩ := selfSim_bounds (dot x x) hbig
  rw [← hcos] at hlow hhigh
  have hr : round4 (cos_sim n x x) = 1 := by
    have h := round4_eq (cos_sim n x x) 10000 (by push_cast; linarith)
      (by push_cast; linarith)
    norm_num at h
    exact h
  have hm : (0.80 : ℚ) ≤ cos_sim n x x := by
    norm_num at hlow ⊢
    linarith
  simp [compare, hr, hm]

/-- C1 witness: at `x = [1]` (squared norm 1) the hypotheses of
`C1_selfSimilarity` hold and compare returns similarity 1, match true. -/
theorem C1_witness :
    compare norm1 [(1 : ℚ)] [(1 : ℚ)] = (.compareOk ⟨1, true⟩, [.arith]) :=
  C1_selfSimilarity norm1 [(1 : ℚ)]
    (by simp [norm1, dot]) (by simp [dot]; norm_num)

/-- C3 (confirmed): when the computed cosine similarity is exactly the
threshold `0.80`, the response has `is_match = true` — the comparison
`cos_sim >= 0.80` is inclusive (and the reported similarity is the
rounded threshold itself). -/
theorem C3_inclusiveThreshold (n : List ℚ → ℚ) (a b : List ℚ)
    (hlen : a.length = b.length) (hc : cos_sim n a b = 0.80) :
    compare n a b = (.compareOk ⟨0.80, true⟩, [.arith]) := by
  have hr : round4 (0.80 : ℚ) = 0.80 := by
    have h := round4_eq 0.80 8000 (by norm_num) (by norm_num)
    norm_num at h ⊢
    exact h
  simp [compare, hlen, hc, hr]

/-- C3 witness: the pair `a = b = [0.0002]` makes the computed cosine
exactly `4e-8 / (4e-8 + 1e-8) = 0.80`, and the match is true. -/
theorem C3_witness :
    compare norm1 [(2 : ℚ)/10000] [(2 : ℚ)/10000] =
      (.compareOk ⟨0.80, true⟩, [.arith]) := by
  have h1 : |(2 : ℚ)/10000| = 2/10000 := abs_of_nonneg (by norm_num)
  refine C3_inclusiveThreshold norm1 _ _ rfl ?_
  simp [cos_sim, dot, norm1, eps, h1]
  norm_num

/-- C4 (confirmed): embeddings of unequal length fail the shape check
with the 400 error and an empty effect trace — no dot product, norm or
division is performed. (Through the typed JSON interface both inputs
are flat float lists, so `np.array` is always 1-D and the only
reachable violation of the precondition is a length mismatch.) -/
theorem C4_shapeMismatch (n : List ℚ → ℚ) (a b : List ℚ)
    (h : a.length ≠ b.length) :
    compare n a b =
      (.error ⟨400, "Embeddings must be 1-D arrays of equal length"⟩, []) := by
  simp [compare, h]

/-- C4 witness: a 1-vector against a 2-vector is rejected with no
arithmetic performed. -/
theorem C4_witness :
    compare norm1 [(1 : ℚ)] [(1 : ℚ), 2] =
      (.error ⟨400, "Embeddings must be 1-D arrays of equal length"⟩, []) :=
  C4_shapeMismatch norm1 [(1 : ℚ)] [(1 : ℚ), 2] (by decide)

/-- C7 (confirmed): compare is symmetric in its two embeddings — the
whole response (similarity, is_match, and the effect trace, whether the
shape check passes or fails) is unchanged when the arguments swap. -/
theorem C7_symmetry (n : List ℚ → ℚ) (a b : List ℚ) :
    compare n a b = compare n b a := by
  unfold compare
  by_cases h : a.length = b.length
  · rw [if_pos h, if_pos h.symm, cos_sim_comm]
  · rw [if_neg h, if_neg (fun hh => h hh.symm)]

/-- C9 (confirmed): the similarity is rounded to 4 decimals but
`is_match` uses the unrounded cosine, so the response can be
inconsistent at the threshold: for `a = [0.0001]`, `b = [0.0003999]`
the unrounded cosine is `3999/4999 ≈ 0.79996 < 0.80`, yet the reported
similarity rounds to exactly `0.80` (≥ the threshold) while
`is_match = false`. -/
theorem C9_roundingInconsistency :
    cos_sim norm1 [(1 : ℚ)/10000] [(3999 : ℚ)/10000000] < 0.80 ∧
    compare norm1 [(1 : ℚ)/10000] [(3999 : ℚ)/10000000] =
      (.compareOk ⟨0.80, false⟩, [.arith]) ∧
    (0.80 : ℚ) ≤ 0.80 := by
  have h1 : norm1 [(1 : ℚ)/10000] = 1/10000 := abs_of_nonneg (by norm_num)
  have h2 : norm1 [(3999 : ℚ)/10000000] = 3999/10000000 := abs_of_nonneg (by norm_num)
  have hcos : cos_sim norm1 [(1 : ℚ)/10000] [(3999 : ℚ)/10000000] = 3999/4999 := by
    unfold cos_sim
    rw [h1, h2]
    norm_num [dot, eps]
  have hround : round4 ((3999 : ℚ)/4999) = 0.80 := by
    have h := round4_eq ((3999 : ℚ)/4999) 8000 (by norm_num) (by norm_num)
    norm_num at h ⊢
    exact h
  have hm : ¬((0.80 : ℚ) ≤ 3999/4999) := by norm_num
  refine ⟨by rw [hcos]; norm_num, ?_, le_refl _⟩
  show (Response.compareOk
      ⟨round4 (cos_sim norm1 [(1 : ℚ)/10000] [(3999 : ℚ)/10000000]),
       decide ((0.80 : ℚ) ≤ cos_sim norm1 [(1 : ℚ)/10000] [(3999 : ℚ)/10000000])⟩,
     ([.arith] : List Effect)) = _
  rw [hcos, hround, decide_eq_false hm]

/-- C2 (counterexample): the claim says every upload endpoint rejects
an unsupported extension with a 400 before any decoding or temp-file
write, naming `/embed` and `/diarize`; but `diarize` performs no
extension check at all. With the pipeline loaded, uploading `a.txt`
(extension outside the allow-list) to `/diarize` succeeds — the
service writes the `.txt` temp file and invokes the pipeline instead
of failing with UnsupportedFormat. -/
theorem C2_counterexample :
    diarize sFull [0] (some "a.txt") =
      (.diarizeOk ⟨[]⟩, [.fileRead, .tempWrite ".txt", .pipelineCall, .tempDelete]) ∧
    extSuffix (some "a.txt") = ".txt" ∧
    ".txt" ∉ SUPPORTED_EXTENSIONS ∧
    (∀ e : HttpError, Response.diarizeOk ⟨[]⟩ ≠ .error e) := by
  refine ⟨rfl, by decide, by decide, fun e h => Response.noConfusion h⟩

/-- C2 (amended): an uploaded file whose extension is outside the
allow-list is rejected with the 400 UnsupportedFormat error before any
temp-file write or decode on `/embed` (whose only effect is reading
the upload); `/diarize` performs no extension check and always
proceeds to write the temp file (named with the unchecked suffix) and
invoke the pipeline. -/
theorem C2_embedOnly (env : Env) (s : ServerState)
    (enc : List ℚ → List ℚ) (pl : Bytes → Except String (List RawTurn))
    (d : Bytes) (fn : Option String)
    (hs : s.ecapa_model = some enc) (hp : s.diarization_pipeline = some pl)
    (hbad : extSuffix fn ∉ SUPPORTED_EXTENSIONS) :
    embed env s d fn =
      (.error ⟨400, "Unsupported format: " ++ extSuffix fn⟩, [.fileRead]) ∧
    (diarize s d fn).2 =
      [.fileRead, .tempWrite (extSuffix fn), .pipelineCall, .tempDelete] := by
  have hl : load_audio env d fn =
      (.error ⟨400, "Unsupported format: " ++ extSuffix fn⟩, []) := by
    simp [load_audio, hbad]
  constructor
  · simp [embed, hs, hl]
  · cases hpd : pl d with
    | error e => simp [diarize, hp, hpd]
    | ok ts => simp [diarize, hp, hpd]

/-- C2 witness: with both models loaded, an `/embed` upload named
`a.txt` is rejected with the 400 UnsupportedFormat error after only
reading the upload, while `/diarize` on the same name still writes the
`.txt` temp file and runs the pipeline. -/
theorem C2_witness :
    embed envDemo sFull [0] (some "a.txt") =
      (.error ⟨400, "Unsupported format: " ++ extSuffix (some "a.txt")⟩, [.fileRead]) ∧
    (diarize sFull [0] (some "a.txt")).2 =
      [.fileRead, .tempWrite (extSuffix (some "a.txt")), .pipelineCall, .tempDelete] :=
  C2_embedOnly envDemo sFull (fun w => w) plEmpty [0] (some "a.txt")
    rfl rfl (by decide)

/-- C5 (confirmed): whenever the filename extension is supported and
the external decoder succeeds with at least one channel, `_load_audio`
returns a 1-D waveform at the canonical rate 16000: the channels are
downmixed to mono by pointwise averaging when there is more than one,
and the mono signal is passed through the resampler exactly when the
native rate differs from 16000. -/
theorem C5_monoResample (env : Env) (data : Bytes) (fn : Option String)
    (chans : Audio) (sr : ℕ)
    (hsuf : extSuffix fn ∈ SUPPORTED_EXTENSIONS)
    (hdec : env.decode data = .ok (chans, sr)) (hne : chans ≠ []) :
    (load_audio env data fn).1 =
      .ok ⟨(if sr ≠ 16000
            then env.resample
              (if 1 < chans.length then channelAvg chans else chans.headD []) sr 16000
            else (if 1 < chans.length then channelAvg chans else chans.headD [])),
           16000⟩ := by
  obtain ⟨c, rest, rfl⟩ : ∃ c rest, chans = c :: rest := by
    cases chans with
    | nil => exact absurd rfl hne
    | cons c rest => exact ⟨c, rest, rfl⟩
  cases rest with
  | nil =>
    have hm : ¬ 1 < ([c] : Audio).length := by simp
    by_cases hsr : sr = 16000 <;>
      simp [load_audio, hdec, hsuf, hm, hsr, squeeze0]
  | cons c2 r2 =>
    have hm : 1 < (c :: c2 :: r2).length := by simp
    by_cases hsr : sr = 16000 <;>
      simp [load_audio, hdec, hsuf, hm, hsr, squeeze0]

/-- C5 witness: a stereo 8 kHz decode is averaged to mono and run
through the resampler towards 16000. -/
theorem C5_witness :
    (load_audio envStereo [0] none).1 =
      .ok ⟨(if (8000 : ℕ) ≠ 16000
            then envStereo.resample
              (if 1 < ([[1, 3], [3, 5]] : Audio).length
               then channelAvg [[1, 3], [3, 5]]
               else ([[1, 3], [3, 5]] : Audio).headD []) 8000 16000
            else (if 1 < ([[1, 3], [3, 5]] : Audio).length
                  then channelAvg [[1, 3], [3, 5]]
                  else ([[1, 3], [3, 5]] : Audio).headD [])),
           16000⟩ :=
  C5_monoResample envStereo [0] none [[1, 3], [3, 5]] 8000
    (by decide) rfl (by simp)

/-- C6 (confirmed): when the diarization pipeline was not loaded at
startup, every `/diarize` request fails with the 503
DiarizationUnavailable error with an empty effect trace — the upload
is not read, nothing is decoded — and the whole step leaves the model
state unchanged, so no lazy load is ever attempted. -/
theorem C6_diarizeUnavailable (env : Env) (s : ServerState) (d : Bytes)
    (fn : Option String) (hp : s.diarization_pipeline = none) :
    step env s (.diarize d fn) =
      (s, .error ⟨503,
        "Diarization not available. Set HF_TOKEN and accept pyannote model terms."⟩,
       []) := by
  simp [step, diarize, hp]

/-- C6 witness: starting up without `HF_TOKEN` leaves the pipeline
unloaded, and a `/diarize` call then returns the 503 with no effects
and the startup state unchanged. -/
theorem C6_witness :
    step envDemo (load_models (fun w => w) none plLoadFail) (.diarize [0] none) =
      (load_models (fun w => w) none plLoadFail,
       .error ⟨503,
        "Diarization not available. Set HF_TOKEN and accept pyannote model terms."⟩,
       []) :=
  C6_diarizeUnavailable envDemo (load_models (fun w => w) none plLoadFail)
    [0] none rfl

/-- C8 (confirmed): no request handler mutates the model state: every
single step returns the state it was given, for each of the four
endpoints, and hence any sequence of post-startup requests leaves the
state exactly as `_load_models` produced it. -/
theorem C8_stateImmutable (env : Env) (s : ServerState) (rs : List Request) :
    (∀ r : Request, (step env s r).1 = s) ∧ runRequests env s rs = s := by
  refine ⟨fun r => by cases r <;> rfl, ?_⟩
  induction rs with
  | nil => rfl
  | cons r rs ih =>
    have h1 : (step env s r).1 = s := by cases r <;> rfl
    calc runRequests env s (r :: rs) = runRequests env (step env s r).1 rs := rfl
    _ = runRequests env s rs := by rw [h1]
    _ = s := ih

/-- C10 (confirmed): a missing or empty upload filename is replaced by
the default `audio.wav`, whose suffix `.wav` passes the allow-list, so
the request proceeds to write the temp file and decode as WAV instead
of failing; and rejection with the UnsupportedFormat 400 happens
exactly for the filenames whose computed suffix is outside the
allow-list. -/
theorem C10_defaultFilename (env : Env) (data : Bytes) (fn : Option String)
    (h : fn = none ∨ fn = some "") :
    extSuffix fn = ".wav" ∧
    (load_audio env data fn).2 = [.tempWrite ".wav", .decodeCall, .tempDelete] ∧
    (∀ fn2 : Option String, extSuffix fn2 ∉ SUPPORTED_EXTENSIONS →
      load_audio env data fn2 =
        (.error ⟨400, "Unsupported format: " ++ extSuffix fn2⟩, [])) := by
  have hsuf : extSuffix fn = ".wav" := by rcases h with rfl | rfl <;> rfl
  have hw : ".wav" ∈ SUPPORTED_EXTENSIONS := by decide
  refine ⟨hsuf, ?_, ?_⟩
  · cases hdec : env.decode data with
    | error e => simp [load_audio, hsuf, hdec, hw]
    | ok p => simp [load_audio, hsuf, hdec, hw]
  · intro fn2 hbad
    simp [load_audio, hbad]

/-- C10 witness: an upload with no filename at all is decoded (here:
decode fails on the bytes, but only after the temp write and decode
attempt as `.wav`), and only unsupported suffixes are rejected. -/
theorem C10_witness :
    extSuffix none = ".wav" ∧
    (load_audio envDemo [0] none).2 = [.tempWrite ".wav", .decodeCall, .tempDelete] ∧
    (∀ fn2 : Option String, extSuffix fn2 ∉ SUPPORTED_EXTENSIONS →
      load_audio envDemo [0] fn2 =
        (.error ⟨400, "Unsupported format: " ++ extSuffix fn2⟩, [])) :=
  C10_defaultFilename envDemo [0] none (Or.inl rfl)

end SpeakerService
